import Mathlib

/-
Verification of the MicroPython_BMP58x driver (micropython_bmpxxx/bmpxxx.py)
against its natural-language specification.

The device is modelled as a register file mapping byte addresses to byte
values.  The bit-field accessor CBits comes from the i2c_helpers module,
which is not part of the sources here; it is modelled from the spec
(section 4.1).  All other definitions are direct translations of the
Python code in bmpxxx.py.  Python floats are embedded as rationals for
the purely arithmetic pipeline and as real numbers for the altitude
model, whose formula uses a non-integer power.
-/

/-- A device register file: the byte stored at each register address. -/
def Regs : Type := Nat → Nat

/-- Modelled from the spec: multi-byte assembly of a byte span, significance
increasing with the register address (section 4.1 of the spec); the CBits
helper of the missing i2c_helpers module reads spans this way. -/
def readBytes (regs : Regs) (addr : Nat) : Nat → Nat
  | 0 => 0
  | n + 1 => regs addr % 256 + 256 * readBytes regs (addr + 1) n

/-- Modelled from the spec: a CBits bit-field register descriptor of the
missing i2c_helpers module: bit width, base register address, bit offset
within the span, and byte span (section 4.1 of the spec). -/
structure CBits where
  width : Nat
  addr : Nat
  offset : Nat
  span : Nat
deriving Repr

/-- Modelled from the spec: CBits read - extract the span, shift right by
the bit offset, mask to the bit width. -/
def cbitsGet (c : CBits) (regs : Regs) : Nat :=
  readBytes regs c.addr c.span / 2 ^ c.offset % 2 ^ c.width

/-- Modelled from the spec: merge a field value into an assembled span,
keeping the bits below the offset and above the field (the mask-and-shift
merge of section 4.1, written in div/mod arithmetic form). -/
def mergeField (combined off width v : Nat) : Nat :=
  combined % 2 ^ off + v % 2 ^ width * 2 ^ off
    + combined / 2 ^ (off + width) * 2 ^ (off + width)

/-- Write an assembled span value back into the register file, one byte per
address, significance increasing with the address. -/
def writeBytes (regs : Regs) (addr span v : Nat) : Regs :=
  fun a => if addr ≤ a ∧ a < addr + span then v / 256 ^ (a - addr) % 256 else regs a

/-- One bus write transaction: destination register and the assembled span
value written there. -/
structure WriteTx where
  addr : Nat
  data : Nat
deriving DecidableEq, Repr

/-- Modelled from the spec: the span value a CBits write stores, after the
read-modify-write merge. -/
def cbitsMerged (c : CBits) (regs : Regs) (v : Nat) : Nat :=
  mergeField (readBytes regs c.addr c.span) c.offset c.width v

/-- Modelled from the spec: CBits write - read the span, merge the field,
write the span back. -/
def cbitsSet (c : CBits) (v : Nat) (regs : Regs) : Regs :=
  writeBytes regs c.addr c.span (cbitsMerged c regs v)

/-- The bus transaction performed by a CBits write. -/
def cbitsSetTx (c : CBits) (v : Nat) (regs : Regs) : WriteTx :=
  ⟨c.addr, cbitsMerged c regs v⟩

/-- The errors the driver raises: RuntimeError on failed device discovery
or identity check, ValueError on a configuration value outside the legal
set. -/
inductive DriverError where
  | deviceNotFound
  | invalidValue
deriving DecidableEq, Repr

/-- Result of running a configuration setter: the register file after the
call, the list of bus write transactions it performed, and the error it
raised, if any. -/
structure SetResult where
  regs : Regs
  trace : List WriteTx
  err : Option DriverError

/- ------------------------------------------------------------------ -/
/- Decode helpers (BMP581._twos_comp, BMP280._combine_unsigned,
   BMP280._combine_signed, the BMP390 par_xx combinations).           -/
/- ------------------------------------------------------------------ -/

/-- BMP581._twos_comp: subtract 2 to the bits power when the top bit of
val is set. -/
def twos_comp (val : Nat) (bits : Nat) : Int :=
  if val &&& (1 <<< (bits - 1)) ≠ 0 then (val : Int) - ((1 <<< bits : Nat) : Int)
  else (val : Int)

/-- Modelled from the spec: the spec words for 24-bit two's-complement sign
extension, to be compared with the code's twos_comp. -/
def signExtend24 (c : Nat) : Int :=
  if c < 2 ^ 23 then (c : Int) else (c : Int) - 2 ^ 24

/-- BMP280._combine_unsigned: unsigned 16-bit combination of two bytes. -/
def combine_unsigned (msb lsb : Nat) : Nat :=
  ((msb <<< 8) ||| lsb) &&& 0xFFFF

/-- BMP280._combine_signed: 16-bit combination, sign-extended when the
0x8000 bit is set. -/
def combine_signed (msb lsb : Nat) : Int :=
  let combined := (msb <<< 8) ||| lsb
  if combined &&& 0x8000 ≠ 0 then (combined : Int) - 0x10000 else (combined : Int)

/-- BMP390.par_p1 and friends: 16-bit combination, sign-extended when the
combined value is at least 0x8000. -/
def bmp390_combine_signed (msb lsb : Nat) : Int :=
  let combined := (msb <<< 8) ||| lsb
  if combined ≥ 0x8000 then (combined : Int) - 0x10000 else (combined : Int)

/-- BMP390.par_t3 and friends: signed 8-bit decode of a raw byte. -/
def signed_byte (b : Nat) : Int :=
  if b ≤ 127 then (b : Int) else (b : Int) - 256

/-- Shifting left by n bits and or-ing in a value below 2 to the n is the
same as multiplying by 2 to the n and adding. -/
lemma shiftLeft_or_eq_add (a : ℕ) :
    ∀ n b, b < 2 ^ n → (a <<< n) ||| b = a * 2 ^ n + b := by
  intro n
  induction n with
  | zero =>
    intro b hb
    have hb0 : b = 0 := by omega
    subst hb0
    simp [Nat.shiftLeft_eq]
  | succ n ih =>
    intro b hb
    have hdiv : ((a <<< (n + 1)) ||| b) / 2 = (a <<< n) ||| (b / 2) := by
      rw [Nat.or_div_two]
      congr 1
      rw [Nat.shiftLeft_eq, Nat.shiftLeft_eq, pow_succ, ← mul_assoc]
      exact Nat.mul_div_cancel _ (by norm_num)
    have hpar : (a <<< (n + 1)) % 2 = 0 := by
      rw [Nat.shiftLeft_eq, pow_succ, ← mul_assoc]
      exact Nat.mul_mod_left _ 2
    have hmod : ((a <<< (n + 1)) ||| b) % 2 = b % 2 := by
      have hiff := Nat.or_mod_two_eq_one (a := a <<< (n + 1)) (b := b)
      omega
    have hb2 : b / 2 < 2 ^ n := by
      have hp : 2 ^ (n + 1) = 2 ^ n * 2 := pow_succ 2 n
      omega
    have hrec := ih (b / 2) hb2
    have hsplit := Nat.div_add_mod ((a <<< (n + 1)) ||| b) 2
    have hps : a * 2 ^ (n + 1) = a * 2 ^ n * 2 := by ring
    rw [hdiv, hrec] at hsplit
    omega

/-- A bitwise and with a single power of two is nonzero exactly when the
corresponding bit of the other operand is set. -/
lemma and_two_pow_ne_zero_iff (x n : ℕ) :
    x &&& 2 ^ n ≠ 0 ↔ x / 2 ^ n % 2 = 1 := by
  rw [Nat.and_two_pow, Nat.testBit_to_div_mod]
  rcases Nat.mod_two_eq_zero_or_one (x / 2 ^ n) with h | h <;>
    simp [h, Nat.pow_eq_zero]

/-- C4: for every 16-bit combined value, both signed decodes equal the
combined value when it is below 0x8000 and the combined value minus 0x10000
otherwise, the unsigned decode is the combined value unchanged, and for
every raw byte b the signed 8-bit decode equals b when b is at most 127 and
b minus 256 otherwise. -/
theorem calib_decode_correct (msb lsb b : ℕ)
    (hm : msb < 256) (hl : lsb < 256) (hb : b < 256) :
    combine_signed msb lsb
        = (if msb * 256 + lsb < 0x8000 then ((msb * 256 + lsb : ℕ) : Int)
           else ((msb * 256 + lsb : ℕ) : Int) - 0x10000)
    ∧ bmp390_combine_signed msb lsb
        = (if msb * 256 + lsb < 0x8000 then ((msb * 256 + lsb : ℕ) : Int)
           else ((msb * 256 + lsb : ℕ) : Int) - 0x10000)
    ∧ combine_unsigned msb lsb = msb * 256 + lsb
    ∧ signed_byte b = (if b ≤ 127 then (b : Int) else (b : Int) - 256) := by
  have hcomb : (msb <<< 8) ||| lsb = msb * 256 + lsb := by
    have := shiftLeft_or_eq_add msb 8 lsb (by norm_num [hl])
    simpa using this
  have hlt : msb * 256 + lsb < 65536 := by omega
  have htop : ((msb * 256 + lsb) &&& 0x8000 ≠ 0) ↔ 0x8000 ≤ msb * 256 + lsb := by
    have h1 := and_two_pow_ne_zero_iff (msb * 256 + lsb) 15
    have h2 : (0x8000 : ℕ) = 2 ^ 15 := by norm_num
    rw [h2]
    rw [h1]
    omega
  refine ⟨?_, ?_, ?_, ?_⟩
  · unfold combine_signed
    rw [hcomb]
    by_cases hc : 0x8000 ≤ msb * 256 + lsb
    · rw [if_pos (htop.mpr hc), if_neg (by omega)]
    · rw [if_neg (fun hne => hc (htop.mp hne)), if_pos (by omega)]
  · unfold bmp390_combine_signed
    rw [hcomb]
    by_cases hc : 0x8000 ≤ msb * 256 + lsb
    · rw [if_pos hc, if_neg (by omega)]
    · rw [if_neg hc, if_pos (by omega)]
  · unfold combine_unsigned
    rw [hcomb]
    have h2 : (0xFFFF : ℕ) = 2 ^ 16 - 1 := by norm_num
    rw [h2, Nat.and_pow_two_sub_one_eq_mod]
    exact Nat.mod_eq_of_lt (by omega)
  · rfl

/-- C4 witness: the decodes evaluated at the concrete combined value 0x8001
and the concrete byte 200. -/
theorem calib_decode_correct_witness :
    combine_signed 0x80 0x01 = -32767 ∧ signed_byte 200 = -56 := by
  have h := calib_decode_correct 0x80 0x01 200 (by norm_num) (by norm_num) (by norm_num)
  exact ⟨h.1.trans (by norm_num), h.2.2.2.trans (by norm_num)⟩

/- ------------------------------------------------------------------ -/
/- Per-variant register field descriptors (the CBits class attributes) -/
/- ------------------------------------------------------------------ -/

/-- BMP581 _power_mode: CBits(2, _ODR_CONFIG, 0). -/
def bmp581_pm_field : CBits := ⟨2, 0x37, 0, 1⟩

/-- BMP581 _temperature_oversample_rate: CBits(3, _OSR_CONF, 0). -/
def bmp581_tosr_field : CBits := ⟨3, 0x36, 0, 1⟩

/-- BMP581 _pressure_oversample_rate: CBits(3, _OSR_CONF, 3). -/
def bmp581_posr_field : CBits := ⟨3, 0x36, 3, 1⟩

/-- BMP581 _iir_coefficient: CBits(3, _DSP_IIR, 3), the pressure channel. -/
def bmp581_iir_field : CBits := ⟨3, 0x31, 3, 1⟩

/-- BMP581 _iir_temp_coefficient: CBits(3, _DSP_IIR, 0), the temperature
channel. -/
def bmp581_iir_temp_field : CBits := ⟨3, 0x31, 0, 1⟩

/-- BMP581 _temperature: CBits(24, 0x1D, 0, 3). -/
def bmp581_temp_field : CBits := ⟨24, 0x1D, 0, 3⟩

/-- BMP581 _pressure: CBits(24, 0x20, 0, 3). -/
def bmp581_press_field : CBits := ⟨24, 0x20, 0, 3⟩

/-- BMP390 _power_mode: CBits(2, _PWR_CTRL_BMP390, 4). -/
def bmp390_pm_field : CBits := ⟨2, 0x1B, 4, 1⟩

/-- BMP390 _temperature_oversample_rate: CBits(3, _OSR_CONF_BMP390, 3). -/
def bmp390_tosr_field : CBits := ⟨3, 0x1C, 3, 1⟩

/-- BMP390 _pressure_oversample_rate: CBits(3, _OSR_CONF_BMP390, 0). -/
def bmp390_posr_field : CBits := ⟨3, 0x1C, 0, 1⟩

/-- BMP390 _iir_coefficient: CBits(3, _CONFIG_BMP390, 1). -/
def bmp390_iir_field : CBits := ⟨3, 0x1F, 1, 1⟩

/-- BMP280 _power_mode: CBits(2, _CONTROL_REGISTER_BMP280, 0). -/
def bmp280_pm_field : CBits := ⟨2, 0xF4, 0, 1⟩

/-- BMP280 _pressure_oversample_rate: CBits(3, _CONTROL_REGISTER_BMP280, 2). -/
def bmp280_posr_field : CBits := ⟨3, 0xF4, 2, 1⟩

/-- BMP280 _temperature_oversample_rate: CBits(3, _CONTROL_REGISTER_BMP280, 5). -/
def bmp280_tosr_field : CBits := ⟨3, 0xF4, 5, 1⟩

/-- BMP280 _control_register: CBits(8, _CONTROL_REGISTER_BMP280, 0). -/
def bmp280_control_field : CBits := ⟨8, 0xF4, 0, 1⟩

/-- BMP280 _config_register: CBits(8, _CONFIG_BMP280, 0). -/
def bmp280_config_field : CBits := ⟨8, 0xF5, 0, 1⟩

/-- BMP280 _iir_coefficient: CBits(3, _CONFIG_BMP280, 0). -/
def bmp280_iir_field : CBits := ⟨3, 0xF5, 0, 1⟩

/- ------------------------------------------------------------------ -/
/- Legal value sets (the power_mode_values etc. class tuples)          -/
/- ------------------------------------------------------------------ -/

/-- BMP581 power_mode_values: STANDBY, NORMAL, FORCED, NON_STOP. -/
def bmp581_power_mode_values : List Nat := [0x00, 0x01, 0x02, 0x03]

/-- BMP581 pressure and temperature oversample values OSR1 .. OSR128. -/
def bmp581_osr_values : List Nat := [0, 1, 2, 3, 4, 5, 6, 7]

/-- BMP581 iir_coefficient_values COEF_0 .. COEF_127; inherited unchanged
by BMP390 and BMP280. -/
def bmp581_iir_values : List Nat := [0, 1, 2, 3, 4, 5, 6, 7]

/-- BMP390 power_mode_values: (STANDBY, FORCED, NORMAL) built from the
BMP581 module constants, so the tuple is (0x00, 0x02, 0x01). -/
def bmp390_power_mode_values : List Nat := [0x00, 0x02, 0x01]

/-- BMP390 oversample values OSR1 .. OSR32. -/
def bmp390_osr_values : List Nat := [0, 1, 2, 3, 4, 5]

/-- BMP280 power_mode_values: (STANDBY, FORCED, NORMAL) built from the
BMP581 module constants, so the tuple is (0x00, 0x02, 0x01). -/
def bmp280_power_mode_values : List Nat := [0x00, 0x02, 0x01]

/-- BMP280 oversample values OSR1 .. OSR16 (OSR_SKIP = 0x05 is not
presented as settable). -/
def bmp280_osr_values : List Nat := [0, 1, 2, 3, 4]

/-- BMP280._translate_osr_bmp280: remap the canonical oversample encoding
to the chip's native one (OSR1 = 0 becomes 1 and so on, OSR_SKIP = 5
becomes 0; anything else defaults to 0 through dict.get). -/
def translate_osr_bmp280 (osr_value : Nat) : Nat :=
  if osr_value = 0 then 1
  else if osr_value = 1 then 2
  else if osr_value = 2 then 3
  else if osr_value = 3 then 4
  else if osr_value = 4 then 5
  else if osr_value = 5 then 0
  else 0

/- ------------------------------------------------------------------ -/
/- Configuration setters and getters                                   -/
/- ------------------------------------------------------------------ -/

/-- BMP581 power_mode setter: validate against power_mode_values, then
write the 2-bit power-mode field. -/
def bmp581_set_power_mode (value : Nat) (regs : Regs) : SetResult :=
  if value ∉ bmp581_power_mode_values then ⟨regs, [], some .invalidValue⟩
  else ⟨cbitsSet bmp581_pm_field value regs,
        [cbitsSetTx bmp581_pm_field value regs], none⟩

/-- BMP581 power_mode getter: index the name table by the raw field. -/
def bmp581_power_mode_get (regs : Regs) : Option String :=
  ["STANDBY", "NORMAL", "FORCED", "NON_STOP"][cbitsGet bmp581_pm_field regs]?

/-- BMP581 pressure_oversample_rate setter. -/
def bmp581_set_pressure_osr (value : Nat) (regs : Regs) : SetResult :=
  if value ∉ bmp581_osr_values then ⟨regs, [], some .invalidValue⟩
  else ⟨cbitsSet bmp581_posr_field value regs,
        [cbitsSetTx bmp581_posr_field value regs], none⟩

/-- BMP581 pressure_oversample_rate getter. -/
def bmp581_pressure_osr_get (regs : Regs) : Option String :=
  ["OSR1", "OSR2", "OSR4", "OSR8", "OSR16", "OSR32", "OSR64",
    "OSR128"][cbitsGet bmp581_posr_field regs]?

/-- BMP581 temperature_oversample_rate setter. -/
def bmp581_set_temperature_osr (value : Nat) (regs : Regs) : SetResult :=
  if value ∉ bmp581_osr_values then ⟨regs, [], some .invalidValue⟩
  else ⟨cbitsSet bmp581_tosr_field value regs,
        [cbitsSetTx bmp581_tosr_field value regs], none⟩

/-- BMP581 temperature_oversample_rate getter. -/
def bmp581_temperature_osr_get (regs : Regs) : Option String :=
  ["OSR1", "OSR2", "OSR4", "OSR8", "OSR16", "OSR32", "OSR64",
    "OSR128"][cbitsGet bmp581_tosr_field regs]?

/-- BMP581 iir_coefficient getter (pressure channel). -/
def bmp581_iir_get (regs : Regs) : Option String :=
  ["COEF_0", "COEF_1", "COEF_3", "COEF_7", "COEF_15", "COEF_31", "COEF_63",
    "COEF_127"][cbitsGet bmp581_iir_field regs]?

/-- BMP581 iir_coefficient setter: validate, save the raw power mode, force
STANDBY through the power_mode property if not already there, write the
pressure then the temperature filter field, and restore the saved mode
through the power_mode property (which never fails here, since every raw
2-bit value is in the BMP581 legal set). -/
def bmp581_set_iir_coefficient (value : Nat) (regs : Regs) : SetResult :=
  if value ∉ bmp581_iir_values then ⟨regs, [], some .invalidValue⟩
  else
    let original_mode := cbitsGet bmp581_pm_field regs
    let r1 := if original_mode ≠ 0 then bmp581_set_power_mode 0 regs
              else ⟨regs, [], none⟩
    let tx2 := cbitsSetTx bmp581_iir_field value r1.regs
    let regs2 := cbitsSet bmp581_iir_field value r1.regs
    let tx3 := cbitsSetTx bmp581_iir_temp_field value regs2
    let regs3 := cbitsSet bmp581_iir_temp_field value regs2
    let r4 := bmp581_set_power_mode original_mode regs3
    if r4.err.isSome then ⟨regs3, r1.trace ++ [tx2, tx3], r4.err⟩
    else ⟨r4.regs, r1.trace ++ [tx2, tx3] ++ r4.trace, none⟩

/-- BMP390 power_mode setter: validate against the BMP390 tuple, then write
the raw value unchanged. -/
def bmp390_set_power_mode (value : Nat) (regs : Regs) : SetResult :=
  if value ∉ bmp390_power_mode_values then ⟨regs, [], some .invalidValue⟩
  else ⟨cbitsSet bmp390_pm_field value regs,
        [cbitsSetTx bmp390_pm_field value regs], none⟩

/-- BMP390 power_mode getter: index the three-entry name table by the raw
2-bit field. -/
def bmp390_power_mode_get (regs : Regs) : Option String :=
  ["STANDBY", "FORCED", "NORMAL"][cbitsGet bmp390_pm_field regs]?

/-- BMP390 pressure_oversample_rate setter. -/
def bmp390_set_pressure_osr (value : Nat) (regs : Regs) : SetResult :=
  if value ∉ bmp390_osr_values then ⟨regs, [], some .invalidValue⟩
  else ⟨cbitsSet bmp390_posr_field value regs,
        [cbitsSetTx bmp390_posr_field value regs], none⟩

/-- BMP390 pressure_oversample_rate getter. -/
def bmp390_pressure_osr_get (regs : Regs) : Option String :=
  ["OSR1", "OSR2", "OSR4", "OSR8", "OSR16",
    "OSR32"][cbitsGet bmp390_posr_field regs]?

/-- BMP390 temperature_oversample_rate setter. -/
def bmp390_set_temperature_osr (value : Nat) (regs : Regs) : SetResult :=
  if value ∉ bmp390_osr_values then ⟨regs, [], some .invalidValue⟩
  else ⟨cbitsSet bmp390_tosr_field value regs,
        [cbitsSetTx bmp390_tosr_field value regs], none⟩

/-- BMP390 temperature_oversample_rate getter. -/
def bmp390_temperature_osr_get (regs : Regs) : Option String :=
  ["OSR1", "OSR2", "OSR4", "OSR8", "OSR16",
    "OSR32"][cbitsGet bmp390_tosr_field regs]?

/-- BMP390 iir_coefficient setter: validate, then a single field write, no
standby sequence. -/
def bmp390_set_iir_coefficient (value : Nat) (regs : Regs) : SetResult :=
  if value ∉ bmp581_iir_values then ⟨regs, [], some .invalidValue⟩
  else ⟨cbitsSet bmp390_iir_field value regs,
        [cbitsSetTx bmp390_iir_field value regs], none⟩

/-- BMP390 iir_coefficient getter. -/
def bmp390_iir_get (regs : Regs) : Option String :=
  ["COEF_0", "COEF_1", "COEF_3", "COEF_7", "COEF_15", "COEF_31", "COEF_63",
    "COEF_127"][cbitsGet bmp390_iir_field regs]?

/-- BMP280 power_mode setter: validate against the BMP280 tuple, then remap
through two consecutive non-exclusive if statements (value 0x01 becomes
0x03, after which the second if turns 0x03 into 0x01), then write. -/
def bmp280_set_power_mode (value : Nat) (regs : Regs) : SetResult :=
  if value ∉ bmp280_power_mode_values then ⟨regs, [], some .invalidValue⟩
  else
    let v1 := if value = 0x01 then 0x03 else value
    let v2 := if v1 = 0x03 then 0x01 else v1
    ⟨cbitsSet bmp280_pm_field v2 regs,
      [cbitsSetTx bmp280_pm_field v2 regs], none⟩

/-- BMP280 power_mode getter: the BMP280 name table, ordered for the chip's
native numbering. -/
def bmp280_power_mode_get (regs : Regs) : Option String :=
  ["STANDBY", "FORCED", "FORCED", "NORMAL"][cbitsGet bmp280_pm_field regs]?

/-- BMP280 pressure_oversample_rate setter: validate, read the whole
control register, replace bits 2-4 with the translated oversample value,
write 0x00 to the whole config register, then write the control register
back. -/
def bmp280_set_pressure_osr (value : Nat) (regs : Regs) : SetResult :=
  if value ∉ bmp280_osr_values then ⟨regs, [], some .invalidValue⟩
  else
    let current := cbitsGet bmp280_control_field regs
    let updated := (current &&& 0xe3) + (translate_osr_bmp280 value <<< 2)
    let tx1 := cbitsSetTx bmp280_config_field 0 regs
    let regs1 := cbitsSet bmp280_config_field 0 regs
    let tx2 := cbitsSetTx bmp280_control_field updated regs1
    let regs2 := cbitsSet bmp280_control_field updated regs1
    ⟨regs2, [tx1, tx2], none⟩

/-- BMP280 pressure_oversample_rate getter: the BMP280-native name table
(index 0 is OSR_SKIP). -/
def bmp280_pressure_osr_get (regs : Regs) : Option String :=
  ["OSR_SKIP", "OSR1", "OSR2", "OSR4", "OSR8",
    "OSR16"][cbitsGet bmp280_posr_field regs]?

/-- BMP280 temperature_oversample_rate setter: validate, read the whole
control register, replace bits 5-7 with the translated oversample value,
write 0x00 to the whole config register, then write the control register
back. -/
def bmp280_set_temperature_osr (value : Nat) (regs : Regs) : SetResult :=
  if value ∉ bmp280_osr_values then ⟨regs, [], some .invalidValue⟩
  else
    let current := cbitsGet bmp280_control_field regs
    let updated := (current &&& 0x1f) + (translate_osr_bmp280 value <<< 5)
    let tx1 := cbitsSetTx bmp280_config_field 0 regs
    let regs1 := cbitsSet bmp280_config_field 0 regs
    let tx2 := cbitsSetTx bmp280_control_field updated regs1
    let regs2 := cbitsSet bmp280_control_field updated regs1
    ⟨regs2, [tx1, tx2], none⟩

/-- BMP280 temperature_oversample_rate getter. -/
def bmp280_temperature_osr_get (regs : Regs) : Option String :=
  ["OSR_SKIP", "OSR1", "OSR2", "OSR4", "OSR8",
    "OSR16"][cbitsGet bmp280_tosr_field regs]?

/-- BMP280 iir_coefficient setter: BMP280 defines none of its own, so the
BMP581 setter body runs with BMP280's field layout and BMP280's power_mode
property: the saved raw mode is BMP280's 2-bit field, STANDBY is forced
through the BMP280 power_mode setter, the pressure filter field resolves to
BMP280's _iir_coefficient and the temperature filter field to the inherited
BMP581 _iir_temp_coefficient at register 0x31, and the restore goes through
the BMP280 power_mode setter, which raises ValueError whenever the saved
raw mode is 0x03 (the chip's native NORMAL). -/
def bmp280_set_iir_coefficient (value : Nat) (regs : Regs) : SetResult :=
  if value ∉ bmp581_iir_values then ⟨regs, [], some .invalidValue⟩
  else
    let original_mode := cbitsGet bmp280_pm_field regs
    let r1 := if original_mode ≠ 0 then bmp280_set_power_mode 0 regs
              else ⟨regs, [], none⟩
    let tx2 := cbitsSetTx bmp280_iir_field value r1.regs
    let regs2 := cbitsSet bmp280_iir_field value r1.regs
    let tx3 := cbitsSetTx bmp581_iir_temp_field value regs2
    let regs3 := cbitsSet bmp581_iir_temp_field value regs2
    let r4 := bmp280_set_power_mode original_mode regs3
    if r4.err.isSome then ⟨regs3, r1.trace ++ [tx2, tx3], r4.err⟩
    else ⟨r4.regs, r1.trace ++ [tx2, tx3] ++ r4.trace, none⟩

/-- BMP280 iir_coefficient getter (inherited from BMP581, reading BMP280's
_iir_coefficient field). -/
def bmp280_iir_get (regs : Regs) : Option String :=
  ["COEF_0", "COEF_1", "COEF_3", "COEF_7", "COEF_15", "COEF_31", "COEF_63",
    "COEF_127"][cbitsGet bmp280_iir_field regs]?

/-- BMP585 inherits every configuration property from BMP581 unchanged. -/
def bmp585_set_power_mode : Nat → Regs → SetResult := bmp581_set_power_mode

/-- BMP585 pressure_oversample_rate setter, inherited from BMP581. -/
def bmp585_set_pressure_osr : Nat → Regs → SetResult := bmp581_set_pressure_osr

/-- BMP585 temperature_oversample_rate setter, inherited from BMP581. -/
def bmp585_set_temperature_osr : Nat → Regs → SetResult :=
  bmp581_set_temperature_osr

/-- BMP585 iir_coefficient setter, inherited from BMP581. -/
def bmp585_set_iir_coefficient : Nat → Regs → SetResult :=
  bmp581_set_iir_coefficient

/- ------------------------------------------------------------------ -/
/- C1 and C5                                                           -/
/- ------------------------------------------------------------------ -/

/-- A register file with every byte zero. -/
def zeroRegs : Regs := fun _ => 0

/-- C1: the power-mode round trip fails on the code.  Setting NORMAL
(canonical 0x01) on the BMP390 succeeds but the getter then reports
FORCED, because the getter's three-entry name table is indexed by the raw
register value while the legal tuple reuses the BMP581 module constants.
On the BMP280 the two consecutive remap if statements turn NORMAL into
0x03 and then immediately into 0x01, so the register receives the chip's
FORCED encoding and the getter reports FORCED. -/
theorem power_mode_roundtrip_fails :
    (bmp390_set_power_mode 0x01 zeroRegs).err = none
    ∧ bmp390_power_mode_get (bmp390_set_power_mode 0x01 zeroRegs).regs
        = some "FORCED"
    ∧ (bmp280_set_power_mode 0x01 zeroRegs).err = none
    ∧ cbitsGet bmp280_pm_field (bmp280_set_power_mode 0x01 zeroRegs).regs
        = 0x01
    ∧ bmp280_power_mode_get (bmp280_set_power_mode 0x01 zeroRegs).regs
        = some "FORCED" := by
  refine ⟨rfl, rfl, rfl, rfl, rfl⟩

/-- C5: on every variant and every configuration setter, a value outside
the variant's legal set makes the setter raise ValueError with no register
write performed and the register file unchanged. -/
theorem invalid_value_rejected_before_write (regs : Regs) (v : Nat) :
    (v ∉ bmp581_power_mode_values →
      bmp581_set_power_mode v regs = ⟨regs, [], some .invalidValue⟩)
    ∧ (v ∉ bmp581_osr_values →
      bmp581_set_pressure_osr v regs = ⟨regs, [], some .invalidValue⟩)
    ∧ (v ∉ bmp581_osr_values →
      bmp581_set_temperature_osr v regs = ⟨regs, [], some .invalidValue⟩)
    ∧ (v ∉ bmp581_iir_values →
      bmp581_set_iir_coefficient v regs = ⟨regs, [], some .invalidValue⟩)
    ∧ (v ∉ bmp581_power_mode_values →
      bmp585_set_power_mode v regs = ⟨regs, [], some .invalidValue⟩)
    ∧ (v ∉ bmp581_osr_values →
      bmp585_set_pressure_osr v regs = ⟨regs, [], some .invalidValue⟩)
    ∧ (v ∉ bmp581_osr_values →
      bmp585_set_temperature_osr v regs = ⟨regs, [], some .invalidValue⟩)
    ∧ (v ∉ bmp581_iir_values →
      bmp585_set_iir_coefficient v regs = ⟨regs, [], some .invalidValue⟩)
    ∧ (v ∉ bmp390_power_mode_values →
      bmp390_set_power_mode v regs = ⟨regs, [], some .invalidValue⟩)
    ∧ (v ∉ bmp390_osr_values →
      bmp390_set_pressure_osr v regs = ⟨regs, [], some .invalidValue⟩)
    ∧ (v ∉ bmp390_osr_values →
      bmp390_set_temperature_osr v regs = ⟨regs, [], some .invalidValue⟩)
    ∧ (v ∉ bmp581_iir_values →
      bmp390_set_iir_coefficient v regs = ⟨regs, [], some .invalidValue⟩)
    ∧ (v ∉ bmp280_power_mode_values →
      bmp280_set_power_mode v regs = ⟨regs, [], some .invalidValue⟩)
    ∧ (v ∉ bmp280_osr_values →
      bmp280_set_pressure_osr v regs = ⟨regs, [], some .invalidValue⟩)
    ∧ (v ∉ bmp280_osr_values →
      bmp280_set_temperature_osr v regs = ⟨regs, [], some .invalidValue⟩)
    ∧ (v ∉ bmp581_iir_values →
      bmp280_set_iir_coefficient v regs = ⟨regs, [], some .invalidValue⟩) := by
  refine ⟨?_, ?_, ?_, ?_, ?_, ?_, ?_, ?_, ?_, ?_, ?_, ?_, ?_, ?_, ?_, ?_⟩ <;>
    intro h <;> exact if_pos h

/-- C5 witness: value 9 is outside every legal set; on the all-zero
register file the BMP581 power-mode setter rejects it unchanged. -/
theorem invalid_value_rejected_before_write_witness :
    bmp581_set_power_mode 9 zeroRegs = ⟨zeroRegs, [], some .invalidValue⟩ :=
  (invalid_value_rejected_before_write zeroRegs 9).1 (by decide)

/- ------------------------------------------------------------------ -/
/- C2: the linear-scale reading pipeline of BMP581 and BMP585          -/
/- ------------------------------------------------------------------ -/

/-- BMP581.temperature: two's-complement of the 24-bit raw register,
divided by 65536.0, in degrees Celsius. -/
def bmp581_temperature (regs : Regs) : ℚ :=
  (twos_comp (cbitsGet bmp581_temp_field regs) 24 : ℚ) / 65536

/-- BMP581.pressure: two's-complement of the 24-bit raw register, divided
by 64.0 and then by 100.0, in hPa. -/
def bmp581_pressure (regs : Regs) : ℚ :=
  (twos_comp (cbitsGet bmp581_press_field regs) 24 : ℚ) / 64 / 100

/-- BMP585 inherits both readings from BMP581 unchanged. -/
def bmp585_temperature : Regs → ℚ := bmp581_temperature

/-- BMP585 pressure, inherited from BMP581. -/
def bmp585_pressure : Regs → ℚ := bmp581_pressure

/-- A CBits read is always below 2 to the field width. -/
lemma cbitsGet_lt (c : CBits) (regs : Regs) : cbitsGet c regs < 2 ^ c.width :=
  Nat.mod_lt _ (by positivity)

/-- On 24-bit inputs the code's twos_comp agrees with the spec's
sign-extension characterization. -/
lemma twos_comp_24 (val : ℕ) (h : val < 2 ^ 24) :
    twos_comp val 24 = signExtend24 val := by
  have h3 := and_two_pow_ne_zero_iff val 23
  have hp23 : (2 : ℕ) ^ 23 = 8388608 := by norm_num
  have hp24 : (2 : ℕ) ^ 24 = 16777216 := by norm_num
  have e1 : (1 <<< 23 : ℕ) = 2 ^ 23 := by simp [Nat.shiftLeft_eq]
  have e2 : (1 <<< 24 : ℕ) = 2 ^ 24 := by simp [Nat.shiftLeft_eq]
  unfold twos_comp signExtend24
  have e0 : (24 - 1 : ℕ) = 23 := rfl
  rw [e0, e1, e2]
  by_cases hc : val < 2 ^ 23
  · have hbit : ¬ val &&& 2 ^ 23 ≠ 0 := by rw [h3]; omega
    rw [if_neg hbit, if_pos hc]
  · have hbit : val &&& 2 ^ 23 ≠ 0 := by rw [h3]; omega
    rw [if_pos hbit, if_neg hc]
    push_cast
    norm_num

/-- C2: on the linear-scale variants the temperature reading is the sign
extension of the 24-bit raw register over 65536, the pressure reading is
the sign extension over 64 and then 100, raw temperature 0 gives 0 degrees
and raw pressure 6400 gives exactly 1 hPa; BMP585 shares the BMP581
pipeline. -/
theorem linear_scale_correct (regs : Regs) :
    bmp581_temperature regs
        = (signExtend24 (cbitsGet bmp581_temp_field regs) : ℚ) / 65536
    ∧ bmp581_pressure regs
        = (signExtend24 (cbitsGet bmp581_press_field regs) : ℚ) / 64 / 100
    ∧ (cbitsGet bmp581_temp_field regs = 0 → bmp581_temperature regs = 0)
    ∧ (cbitsGet bmp581_press_field regs = 6400 → bmp581_pressure regs = 1)
    ∧ bmp585_temperature regs = bmp581_temperature regs
    ∧ bmp585_pressure regs = bmp581_pressure regs := by
  have ht := twos_comp_24 _ (cbitsGet_lt bmp581_temp_field regs)
  have hps := twos_comp_24 _ (cbitsGet_lt bmp581_press_field regs)
  refine ⟨?_, ?_, ?_, ?_, rfl, rfl⟩
  · unfold bmp581_temperature
    rw [ht]
  · unfold bmp581_pressure
    rw [hps]
  · intro h0
    unfold bmp581_temperature
    rw [h0]
    norm_num [twos_comp]
  · intro h0
    unfold bmp581_pressure
    rw [h0]
    have hv : twos_comp 6400 24 = 6400 := by decide
    rw [hv]
    norm_num

/-- A register file whose 24-bit pressure raw block reads 6400 and whose
temperature raw block reads 0. -/
def knownRegs : Regs := fun a => if a = 0x21 then 0x19 else 0

/-- C2 witness: the known-value scenario evaluated on a concrete register
file: raw temperature 0 and raw pressure 6400. -/
theorem linear_scale_correct_witness :
    bmp581_temperature knownRegs = 0 ∧ bmp581_pressure knownRegs = 1 :=
  ⟨(linear_scale_correct knownRegs).2.2.1 (by decide),
   (linear_scale_correct knownRegs).2.2.2.1 (by decide)⟩

/- ------------------------------------------------------------------ -/
/- Single-byte CBits facts shared by the register-effect theorems      -/
/- ------------------------------------------------------------------ -/

/-- Reading a one-byte span is the byte itself. -/
lemma readBytes_one (regs : Regs) (addr : Nat) :
    readBytes regs addr 1 = regs addr % 256 := by
  simp [readBytes]

/-- A one-byte CBits read in div/mod form. -/
lemma cbitsGet_one (w addr off : Nat) (regs : Regs) :
    cbitsGet ⟨w, addr, off, 1⟩ regs = regs addr % 256 / 2 ^ off % 2 ^ w := by
  simp [cbitsGet, readBytes_one]

/-- A one-byte CBits write changes exactly its own byte, to the merged
value. -/
lemma cbitsSet_one_apply (w addr off v : Nat) (regs : Regs) (a : Nat) :
    cbitsSet ⟨w, addr, off, 1⟩ v regs a
      = if a = addr then mergeField (regs addr % 256) off w v % 256
        else regs a := by
  unfold cbitsSet writeBytes cbitsMerged
  dsimp only
  by_cases h : a = addr
  · subst h
    rw [if_pos (by omega), if_pos rfl]
    simp [readBytes_one]
  · rw [if_neg (by omega), if_neg h]

set_option maxRecDepth 2000 in
/-- Bits 2 to 4 of a byte masked with 0xe3 are zero. -/
lemma and_e3_bits : ∀ c < 256, (c &&& 0xe3) / 4 % 8 = 0 ∧ c &&& 0xe3 < 256 := by
  decide

set_option maxRecDepth 2000 in
/-- Bits 5 to 7 of a byte masked with 0x1f are zero, and the mask keeps the
value below 32. -/
lemma and_1f_bits : ∀ c < 256, (c &&& 0x1f) / 32 % 8 = 0 ∧ c &&& 0x1f < 32 := by
  decide

/-- The translated BMP280 oversample encoding of a legal value is at most
5. -/
lemma translate_le_five (v : Nat) (hv : v ∈ bmp280_osr_values) :
    translate_osr_bmp280 v ≤ 5 := by
  simp [bmp280_osr_values] at hv
  rcases hv with rfl | rfl | rfl | rfl | rfl <;> decide

/-- C10: on the BMP280, every valid oversample-rate set also writes 0x00
to the whole config register, so the IIR coefficient field reads 0
afterwards, in addition to the intended 3-bit update of the control
register. -/
theorem bmp280_osr_clobbers_config (regs : Regs) (v : Nat)
    (hv : v ∈ bmp280_osr_values) :
    (bmp280_set_pressure_osr v regs).err = none
    ∧ (bmp280_set_temperature_osr v regs).err = none
    ∧ (bmp280_set_pressure_osr v regs).regs 0xF5 = 0
    ∧ (bmp280_set_temperature_osr v regs).regs 0xF5 = 0
    ∧ cbitsGet bmp280_iir_field (bmp280_set_pressure_osr v regs).regs = 0
    ∧ cbitsGet bmp280_iir_field (bmp280_set_temperature_osr v regs).regs = 0
    ∧ cbitsGet bmp280_posr_field (bmp280_set_pressure_osr v regs).regs
        = translate_osr_bmp280 v
    ∧ cbitsGet bmp280_tosr_field (bmp280_set_temperature_osr v regs).regs
        = translate_osr_bmp280 v := by
  have hvin : ¬ v ∉ bmp280_osr_values := fun hn => hn hv
  have ht := translate_le_five v hv
  have hc : regs 0xF4 % 256 < 256 := Nat.mod_lt _ (by norm_num)
  have hcfg : regs 0xF5 % 256 < 256 := Nat.mod_lt _ (by norm_num)
  have he3 := and_e3_bits (cbitsGet bmp280_control_field regs)
    (cbitsGet_lt bmp280_control_field regs)
  have h1f := and_1f_bits (cbitsGet bmp280_control_field regs)
    (cbitsGet_lt bmp280_control_field regs)
  have hle3 : cbitsGet bmp280_control_field regs &&& 0xe3 ≤ 0xe3 :=
    Nat.and_le_right
  simp only [bmp280_set_pressure_osr, bmp280_set_temperature_osr, if_neg hvin]
  set t := translate_osr_bmp280 v with htdef
  set A := cbitsGet bmp280_control_field regs &&& 0xe3 with hAdef
  set B := cbitsGet bmp280_control_field regs &&& 0x1f with hBdef
  have hshift2 : t <<< 2 = 4 * t := by
    rw [Nat.shiftLeft_eq]
    ring
  have hshift5 : t <<< 5 = 32 * t := by
    rw [Nat.shiftLeft_eq]
    ring
  refine ⟨True.intro, True.intro, ?_, ?_, ?_, ?_, ?_, ?_⟩ <;>
    simp only [bmp280_iir_field, bmp280_posr_field, bmp280_tosr_field,
      bmp280_config_field, bmp280_control_field, cbitsGet_one,
      cbitsSet_one_apply, mergeField, hshift2, hshift5] <;>
    norm_num <;>
    omega

/-- C10 witness: concrete evaluation at oversample value OSR4 (canonical
2) on the all-zero register file. -/
theorem bmp280_osr_clobbers_config_witness :
    (bmp280_set_pressure_osr 2 zeroRegs).regs 0xF5 = 0
    ∧ cbitsGet bmp280_posr_field (bmp280_set_pressure_osr 2 zeroRegs).regs
        = 3 := by
  have h := bmp280_osr_clobbers_config zeroRegs 2 (by decide)
  exact ⟨h.2.2.1, h.2.2.2.2.2.2.1.trans (by decide)⟩

/- ------------------------------------------------------------------ -/
/- C7: BMP581 IIR write sequence through STANDBY                       -/
/- ------------------------------------------------------------------ -/

/-- A one-byte merged span equals the merged field over the byte. -/
lemma cbitsMerged_one (w addr off v : Nat) (regs : Regs) :
    cbitsMerged ⟨w, addr, off, 1⟩ regs v
      = mergeField (regs addr % 256) off w v := by
  simp [cbitsMerged, readBytes_one]

/-- Bits 0-1 of a merged 2-bit field at offset 0 are the written value. -/
lemma merge_pm_mod_four (x w : ℕ) : mergeField x 0 2 w % 4 = w % 4 := by
  unfold mergeField
  norm_num
  omega

/-- Merging a 2-bit field at offset 0 into a byte stays below 256. -/
lemma merge_pm_lt (x w : ℕ) (hx : x < 256) : mergeField x 0 2 w < 256 := by
  unfold mergeField
  norm_num
  omega

/-- Bits 3-5 of a merged 3-bit field at offset 3 are the written value. -/
lemma merge_press_div (c v : ℕ) (hv : v < 8) :
    mergeField c 3 3 v / 8 % 8 = v := by
  unfold mergeField
  norm_num
  omega

/-- Merging a 3-bit field at offset 3 into a byte stays below 256. -/
lemma merge_press_lt (c v : ℕ) (hc : c < 256) : mergeField c 3 3 v < 256 := by
  unfold mergeField
  norm_num
  omega

/-- Bits 0-2 of a merged 3-bit field at offset 0 are the written value. -/
lemma merge_temp_mod (c v : ℕ) (hv : v < 8) : mergeField c 0 3 v % 8 = v := by
  unfold mergeField
  norm_num
  omega

/-- Merging a 3-bit field at offset 0 leaves bits 3-5 unchanged. -/
lemma merge_temp_div (c v : ℕ) : mergeField c 0 3 v / 8 % 8 = c / 8 % 8 := by
  unfold mergeField
  norm_num
  omega

/-- Reading the BMP581 power-mode field right after writing it returns the
written value modulo the field width. -/
lemma pm_get_after_set (regs : Regs) (w : ℕ) :
    cbitsGet bmp581_pm_field (cbitsSet bmp581_pm_field w regs) = w % 4 := by
  simp only [bmp581_pm_field, cbitsGet_one, cbitsSet_one_apply]
  norm_num
  have h1 := merge_pm_mod_four (regs 0x37 % 256) w
  have h2 := merge_pm_lt (regs 0x37 % 256) w (Nat.mod_lt _ (by norm_num))
  omega

/-- C7: on the BMP581 starting from NORMAL mode, setting a valid IIR
coefficient performs exactly four register writes: power mode to STANDBY,
the pressure filter field, the temperature filter field (both on the DSP
IIR register), and power mode back; the setter succeeds and the power mode
read afterwards equals the mode before the call. -/
theorem bmp581_iir_standby_sequence (regs : Regs) (v : Nat)
    (hv : v ∈ bmp581_iir_values) (hm : cbitsGet bmp581_pm_field regs = 1) :
    ∃ d0 d1 d2 d3,
      (bmp581_set_iir_coefficient v regs).trace
          = [⟨0x37, d0⟩, ⟨0x31, d1⟩, ⟨0x31, d2⟩, ⟨0x37, d3⟩]
      ∧ d0 % 4 = 0
      ∧ d1 / 8 % 8 = v
      ∧ d2 % 8 = v
      ∧ d2 / 8 % 8 = v
      ∧ d3 % 4 = 1
      ∧ (bmp581_set_iir_coefficient v regs).err = none
      ∧ cbitsGet bmp581_pm_field (bmp581_set_iir_coefficient v regs).regs
          = cbitsGet bmp581_pm_field regs := by
  have hvin : ¬ v ∉ bmp581_iir_values := fun h => h hv
  have hv8 : v < 8 := by
    have hx : v ∈ bmp581_iir_values := hv
    simp [bmp581_iir_values] at hx
    omega
  simp only [bmp581_set_iir_coefficient, if_neg hvin, hm,
    bmp581_set_power_mode, bmp581_power_mode_values]
  norm_num
  refine ⟨_, _, _, _, ⟨rfl, rfl, rfl, rfl⟩, ?_, ?_, ?_, ?_, ?_, ?_⟩
  · simp only [bmp581_pm_field, cbitsMerged_one]
    rw [merge_pm_mod_four]
  · simp only [bmp581_iir_field, bmp581_pm_field, cbitsMerged_one,
      cbitsSet_one_apply]
    norm_num
    exact merge_press_div _ _ hv8
  · simp only [bmp581_iir_temp_field, bmp581_iir_field, bmp581_pm_field,
      cbitsMerged_one, cbitsSet_one_apply]
    norm_num
    exact merge_temp_mod _ _ hv8
  · simp only [bmp581_iir_temp_field, bmp581_iir_field, bmp581_pm_field,
      cbitsMerged_one, cbitsSet_one_apply]
    norm_num
    rw [merge_temp_div]
    have hlt := merge_press_lt (regs 0x31 % 256) v (Nat.mod_lt _ (by norm_num))
    have hdiv := merge_press_div (regs 0x31 % 256) v hv8
    omega
  · simp only [bmp581_pm_field, bmp581_iir_temp_field, bmp581_iir_field,
      cbitsMerged_one, cbitsSet_one_apply]
    norm_num
    rw [merge_pm_mod_four]
  · rw [pm_get_after_set]

/-- A BMP581 register file whose power-mode field reads NORMAL. -/
def normalRegs581 : Regs := fun a => if a = 0x37 then 1 else 0

/-- C7 witness: concrete evaluation of the IIR sequence at coefficient
COEF_7 starting from NORMAL on a concrete register file. -/
theorem bmp581_iir_standby_sequence_witness :
    (bmp581_set_iir_coefficient 3 normalRegs581).err = none
    ∧ cbitsGet bmp581_pm_field (bmp581_set_iir_coefficient 3 normalRegs581).regs
        = cbitsGet bmp581_pm_field normalRegs581 := by
  obtain ⟨d0, d1, d2, d3, htr, h0, h1, h2, h3, h4, herr, hget⟩ :=
    bmp581_iir_standby_sequence normalRegs581 3 (by decide) (by decide)
  exact ⟨herr, hget⟩

/- ------------------------------------------------------------------ -/
/- C9: construction, address probing and identity check                -/
/- ------------------------------------------------------------------ -/

/-- The variant __init__ methods up to the device-ID check: with no caller
address, probe the default then the secondary address (a failed probe is an
OSError caught by _check_address) and raise RuntimeError if neither
responds; with a caller address, probe only it; then read the device-ID
register and raise RuntimeError unless it equals the expected byte.  The
function returns the resolved address on success. -/
def bmpInit (ack : Nat → Bool) (devId : Nat → Nat)
    (defaultAddr secondAddr expected : Nat) (addrOpt : Option Nat) :
    Except DriverError Nat :=
  match addrOpt with
  | none =>
    if ack defaultAddr then
      if devId defaultAddr = expected then .ok defaultAddr
      else .error .deviceNotFound
    else if ack secondAddr then
      if devId secondAddr = expected then .ok secondAddr
      else .error .deviceNotFound
    else .error .deviceNotFound
  | some a =>
    if ack a then
      if devId a = expected then .ok a else .error .deviceNotFound
    else .error .deviceNotFound

/-- BMP581.__init__: addresses 0x47 and 0x46, expected device ID 0x50. -/
def bmp581_init (ack : Nat → Bool) (devId : Nat → Nat)
    (addrOpt : Option Nat) : Except DriverError Nat :=
  bmpInit ack devId 0x47 0x46 0x50 addrOpt

/-- BMP585.__init__: addresses 0x47 and 0x46, expected device ID 0x51. -/
def bmp585_init (ack : Nat → Bool) (devId : Nat → Nat)
    (addrOpt : Option Nat) : Except DriverError Nat :=
  bmpInit ack devId 0x47 0x46 0x51 addrOpt

/-- BMP390.__init__: addresses 0x7f and 0x7e, expected device ID 0x60. -/
def bmp390_init (ack : Nat → Bool) (devId : Nat → Nat)
    (addrOpt : Option Nat) : Except DriverError Nat :=
  bmpInit ack devId 0x7f 0x7e 0x60 addrOpt

/-- BMP280.__init__: addresses 0x77 and 0x76, expected device ID 0x58. -/
def bmp280_init (ack : Nat → Bool) (devId : Nat → Nat)
    (addrOpt : Option Nat) : Except DriverError Nat :=
  bmpInit ack devId 0x77 0x76 0x58 addrOpt

/-- The condition under which construction should fail: no candidate
address acknowledges, or the device-ID read at the resolved address does
not equal the expected byte. -/
def discoveryFails (ack : Nat → Bool) (devId : Nat → Nat)
    (defaultAddr secondAddr expected : Nat) (addrOpt : Option Nat) : Prop :=
  match addrOpt with
  | some a => ack a = false ∨ devId a ≠ expected
  | none =>
    if ack defaultAddr then devId defaultAddr ≠ expected
    else if ack secondAddr then devId secondAddr ≠ expected
    else True

/-- Construction fails exactly under the discovery-failure condition, and
the only error it can produce is device-not-found. -/
lemma bmpInit_spec (ack : Nat → Bool) (devId : Nat → Nat)
    (d s e : Nat) (addrOpt : Option Nat) :
    (bmpInit ack devId d s e addrOpt = .error .deviceNotFound
      ↔ discoveryFails ack devId d s e addrOpt)
    ∧ ∀ err, bmpInit ack devId d s e addrOpt = .error err →
        err = .deviceNotFound := by
  rcases addrOpt with _ | a
  · constructor
    · simp only [bmpInit, discoveryFails]
      split_ifs with h1 h2 h3 h4 <;> simp_all
    · intro err
      simp only [bmpInit]
      split_ifs with h1 h2 h3 h4 <;> simp_all
  · constructor
    · simp only [bmpInit, discoveryFails]
      split_ifs with h1 h2 <;> simp_all
    · intro err
      simp only [bmpInit]
      split_ifs with h1 h2 <;> simp_all

/-- C9: on every variant, construction fails exactly when no candidate
address acknowledges or the device-ID byte at the resolved address differs
from the variant's expected value (0x50, 0x51, 0x60, 0x58), and every
construction failure is the device-not-found error, never any other. -/
theorem device_discovery_correct (ack : Nat → Bool) (devId : Nat → Nat)
    (addrOpt : Option Nat) :
    (bmp581_init ack devId addrOpt = .error .deviceNotFound
      ↔ discoveryFails ack devId 0x47 0x46 0x50 addrOpt)
    ∧ (bmp585_init ack devId addrOpt = .error .deviceNotFound
      ↔ discoveryFails ack devId 0x47 0x46 0x51 addrOpt)
    ∧ (bmp390_init ack devId addrOpt = .error .deviceNotFound
      ↔ discoveryFails ack devId 0x7f 0x7e 0x60 addrOpt)
    ∧ (bmp280_init ack devId addrOpt = .error .deviceNotFound
      ↔ discoveryFails ack devId 0x77 0x76 0x58 addrOpt)
    ∧ (∀ err, bmp581_init ack devId addrOpt = .error err →
        err = .deviceNotFound)
    ∧ (∀ err, bmp585_init ack devId addrOpt = .error err →
        err = .deviceNotFound)
    ∧ (∀ err, bmp390_init ack devId addrOpt = .error err →
        err = .deviceNotFound)
    ∧ (∀ err, bmp280_init ack devId addrOpt = .error err →
        err = .deviceNotFound) :=
  ⟨(bmpInit_spec ack devId 0x47 0x46 0x50 addrOpt).1,
   (bmpInit_spec ack devId 0x47 0x46 0x51 addrOpt).1,
   (bmpInit_spec ack devId 0x7f 0x7e 0x60 addrOpt).1,
   (bmpInit_spec ack devId 0x77 0x76 0x58 addrOpt).1,
   (bmpInit_spec ack devId 0x47 0x46 0x50 addrOpt).2,
   (bmpInit_spec ack devId 0x47 0x46 0x51 addrOpt).2,
   (bmpInit_spec ack devId 0x7f 0x7e 0x60 addrOpt).2,
   (bmpInit_spec ack devId 0x77 0x76 0x58 addrOpt).2⟩

/-- C9 witness: a bus where every address acknowledges but the device-ID
register always reads 0x99; BMP581 construction fails with device-not-found
on the default address. -/
theorem device_discovery_correct_witness :
    bmp581_init (fun _ => true) (fun _ => 0x99) none
      = .error .deviceNotFound :=
  (device_discovery_correct (fun _ => true) (fun _ => 0x99) none).1.mpr
    (by simp [discoveryFails])

/- ------------------------------------------------------------------ -/
/- C6: BMP280 pressure compensation and its division-by-zero guard     -/
/- ------------------------------------------------------------------ -/

/-- BMP280._calculate_pressure_compensation_bmp280: the six-term rational
polynomial of the datasheet, with the var1 == 0.0 guard returning the
sentinel pressure 0; the tempc argument is accepted but unused by the
source, which reads self.t_fine instead. -/
def calculate_pressure_compensation_bmp280
    (dig_p1 dig_p2 dig_p3 dig_p4 dig_p5 dig_p6 dig_p7 dig_p8 dig_p9 : ℚ)
    (t_fine : ℚ) (raw_pressure : ℚ) (tempc : ℚ) : ℚ :=
  let var1 := t_fine / 2 - 64000
  let var2 := var1 * var1 * dig_p6 / 32768
  let var2 := var2 + var1 * dig_p5 * 2
  let var2 := var2 / 4 + dig_p4 * 65536
  let var1 := (dig_p3 * var1 * var1 / 524288 + dig_p2 * var1) / 524288
  let var1 := (1 + var1 / 32768) * dig_p1
  if var1 = 0 then 0
  else
    let p := 1048576 - raw_pressure
    let p := (p - var2 / 4096) * 6250 / var1
    let var1 := dig_p9 * p * p / 2147483648
    let var2 := p * dig_p8 / 32768
    p + (var1 + var2 + dig_p7) / 16

/-- The intermediate denominator var1 that the BMP280 pressure
compensation divides by. -/
def bmp280_var1 (dig_p1 dig_p2 dig_p3 t_fine : ℚ) : ℚ :=
  let var1 := t_fine / 2 - 64000
  (1 + (dig_p3 * var1 * var1 / 524288 + dig_p2 * var1) / 524288 / 32768) * dig_p1

/-- The intermediate var2 accumulator of the BMP280 pressure
compensation. -/
def bmp280_var2 (dig_p4 dig_p5 dig_p6 t_fine : ℚ) : ℚ :=
  let var1 := t_fine / 2 - 64000
  (var1 * var1 * dig_p6 / 32768 + var1 * dig_p5 * 2) / 4 + dig_p4 * 65536

/-- C6: the BMP280 pressure compensation returns the sentinel 0 exactly
when the intermediate denominator var1 is exactly zero, and otherwise
evaluates the rational polynomial with the division by var1. -/
theorem bmp280_divzero_guard
    (dig_p1 dig_p2 dig_p3 dig_p4 dig_p5 dig_p6 dig_p7 dig_p8 dig_p9
      t_fine raw_pressure tempc : ℚ) :
    (bmp280_var1 dig_p1 dig_p2 dig_p3 t_fine = 0 →
      calculate_pressure_compensation_bmp280 dig_p1 dig_p2 dig_p3 dig_p4
        dig_p5 dig_p6 dig_p7 dig_p8 dig_p9 t_fine raw_pressure tempc = 0)
    ∧ (bmp280_var1 dig_p1 dig_p2 dig_p3 t_fine ≠ 0 →
      calculate_pressure_compensation_bmp280 dig_p1 dig_p2 dig_p3 dig_p4
        dig_p5 dig_p6 dig_p7 dig_p8 dig_p9 t_fine raw_pressure tempc
        = (1048576 - raw_pressure
            - bmp280_var2 dig_p4 dig_p5 dig_p6 t_fine / 4096) * 6250
            / bmp280_var1 dig_p1 dig_p2 dig_p3 t_fine
          + (dig_p9 * ((1048576 - raw_pressure
                - bmp280_var2 dig_p4 dig_p5 dig_p6 t_fine / 4096) * 6250
                / bmp280_var1 dig_p1 dig_p2 dig_p3 t_fine)
              * ((1048576 - raw_pressure
                - bmp280_var2 dig_p4 dig_p5 dig_p6 t_fine / 4096) * 6250
                / bmp280_var1 dig_p1 dig_p2 dig_p3 t_fine) / 2147483648
            + ((1048576 - raw_pressure
                - bmp280_var2 dig_p4 dig_p5 dig_p6 t_fine / 4096) * 6250
                / bmp280_var1 dig_p1 dig_p2 dig_p3 t_fine) * dig_p8 / 32768
            + dig_p7) / 16) := by
  constructor <;> intro h <;>
    simp only [calculate_pressure_compensation_bmp280, bmp280_var1,
      bmp280_var2] at h ⊢
  · rw [if_pos h]
  · rw [if_neg h]

/-- C6 witness: with every calibration constant zero the denominator var1
is exactly zero and the compensation returns the sentinel 0. -/
theorem bmp280_divzero_guard_witness :
    calculate_pressure_compensation_bmp280 0 0 0 0 0 0 0 0 0 0 0 0 = 0 :=
  (bmp280_divzero_guard 0 0 0 0 0 0 0 0 0 0 0 0).1 (by norm_num [bmp280_var1])

/- ------------------------------------------------------------------ -/
/- C3 and C8: the altitude / sea-level-pressure model                  -/
/- ------------------------------------------------------------------ -/

/-- BMP581.altitude getter formula: the international barometric formula
applied to a pressure reading and the stored sea-level reference. -/
noncomputable def altitude_from (pressure sea_level : ℝ) : ℝ :=
  44330.77 * (1 - (pressure / sea_level) ^ (0.1902632 : ℝ))

/-- BMP581.altitude setter back-solve: the sea-level-pressure reference
that makes the current pressure reading correspond to the given
altitude. -/
noncomputable def sea_level_from_altitude (pressure value : ℝ) : ℝ :=
  pressure / (1 - value / 44330.77) ^ ((1 : ℝ) / 0.1902632)

/-- The driver state the altitude model sees: the device registers and the
in-memory sea-level-pressure reference. -/
structure BMP581State where
  regs : Regs
  sea_level_pressure : ℝ

/-- Reading the altitude property: the instantaneous pressure reading
combined with the stored reference. -/
noncomputable def bmp581_altitude (st : BMP581State) : ℝ :=
  altitude_from ((bmp581_pressure st.regs : ℚ) : ℝ) st.sea_level_pressure

/-- Writing the altitude property: overwrite the stored reference with the
back-solved value; the registers are untouched. -/
noncomputable def bmp581_set_altitude (st : BMP581State) (value : ℝ) :
    BMP581State :=
  ⟨st.regs, sea_level_from_altitude ((bmp581_pressure st.regs : ℚ) : ℝ) value⟩

/-- C3: with a fixed positive pressure reading, setting the altitude to
any value below the formula ceiling of 44330.77 and immediately reading it
back returns exactly that value (the real-number model loses nothing to
rounding, so the tolerance is zero). -/
theorem altitude_roundtrip (st : BMP581State) (A : ℝ)
    (hP : 0 < ((bmp581_pressure st.regs : ℚ) : ℝ)) (hA : A < 44330.77) :
    bmp581_altitude (bmp581_set_altitude st A) = A := by
  unfold bmp581_altitude bmp581_set_altitude altitude_from
    sea_level_from_altitude
  dsimp only
  set P := ((bmp581_pressure st.regs : ℚ) : ℝ) with hPdef
  have h44 : (0 : ℝ) < 44330.77 := by norm_num
  have hb : (0 : ℝ) < 1 - A / 44330.77 := by
    have hlt : A / 44330.77 < 1 := (div_lt_one h44).mpr hA
    linarith
  have hq : P / (P / (1 - A / 44330.77) ^ ((1 : ℝ) / 0.1902632))
      = (1 - A / 44330.77) ^ ((1 : ℝ) / 0.1902632) := by
    rw [div_div_eq_mul_div]
    exact mul_div_cancel_left₀ _ (ne_of_gt hP)
  rw [hq, ← Real.rpow_mul hb.le]
  have he : (1 : ℝ) / 0.1902632 * 0.1902632 = 1 := by norm_num
  rw [he, Real.rpow_one]
  field_simp

/-- C3 witness: with raw pressure 6400 (reading 1 hPa) and the default
reference, setting altitude 100 and reading it back returns 100. -/
theorem altitude_roundtrip_witness :
    bmp581_altitude (bmp581_set_altitude ⟨knownRegs, 1013.25⟩ 100) = 100 := by
  have h1 : cbitsGet bmp581_press_field knownRegs = 6400 := by decide
  have h2 : twos_comp 6400 24 = 6400 := by decide
  have hq : bmp581_pressure knownRegs = 1 := by
    unfold bmp581_pressure
    rw [h1, h2]
    norm_num
  exact altitude_roundtrip ⟨knownRegs, 1013.25⟩ 100
    (by rw [hq]; norm_num) (by norm_num)

/-- C8: reading the altitude property returns the barometric formula
applied to the instantaneous pressure reading and the stored reference,
and an equal pressure and reference give altitude exactly 0. -/
theorem altitude_formula (st : BMP581State) :
    bmp581_altitude st
      = 44330.77 * (1 - (((bmp581_pressure st.regs : ℚ) : ℝ)
          / st.sea_level_pressure) ^ (0.1902632 : ℝ))
    ∧ (((bmp581_pressure st.regs : ℚ) : ℝ) = 1013.25 →
        st.sea_level_pressure = 1013.25 → bmp581_altitude st = 0) := by
  constructor
  · rfl
  · intro h1 h2
    unfold bmp581_altitude altitude_from
    rw [h1, h2, div_self (by norm_num : (1013.25 : ℝ) ≠ 0), Real.one_rpow]
    ring

/-- A register file whose 24-bit pressure raw block reads 6484800, which
the linear scale turns into exactly 1013.25 hPa. -/
def standardRegs : Regs :=
  fun a => if a = 0x20 then 0x40 else if a = 0x21 then 0xF3
    else if a = 0x22 then 0x62 else 0

/-- C8 witness: pressure reading 1013.25 hPa against the stored default
reference 1013.25 hPa gives altitude 0. -/
theorem altitude_formula_witness :
    bmp581_altitude ⟨standardRegs, 1013.25⟩ = 0 := by
  have h1 : cbitsGet bmp581_press_field standardRegs = 6484800 := by decide
  have h2 : twos_comp 6484800 24 = 6484800 := by decide
  have hq : bmp581_pressure standardRegs = 1013.25 := by
    unfold bmp581_pressure
    rw [h1, h2]
    norm_num
  exact (altitude_formula ⟨standardRegs, 1013.25⟩).2 (by rw [hq]; norm_num) rfl
